import Mathlib

/-!
# Crash capture and crash-report upload (Mudlet `CrashHandler` / `CrashReporter`)

A shallow embedding of `src/CrashHandler.cpp` and `src/CrashReporter.cpp`.

* The capture backend (sentry-native), the operating system's signal table and the
  network access manager are external: every call the C++ code makes to them is
  appended, in program order, to a trace kept in the state, and the part of their
  state that the code can observe (signal dispositions, directory contents) is
  kept as data.
* `QString` is `String`; a `QDateTime` is a number of milliseconds.
* The crash-report directory is a list of visible entries; artifact ids name entries
  directly inside it. Whether an entry can be opened for reading is part of the entry;
  whether the `QFile::remove` of a finished upload succeeds is an input of that event.
* Two statements of the source are ill-formed as written; the places are marked at
  `handleCrash` and `uploadCrashReport`, together with the reading taken.
-/

namespace Mudlet

/-! ## Values handed to the capture backend -/

/-- The `SENTRY_LEVEL_*` constants used by the handler. -/
inductive SentryLevel where
  | info
  | error
  | fatal
deriving DecidableEq, Repr

/-- A `sentry_value_t` leaf: `sentry_value_new_string` or `sentry_value_new_int32`. -/
inductive SentryValue where
  | string (s : String)
  | int32 (n : Int)
deriving DecidableEq, Repr

/-- Result of `sentry_value_new_message_event(level, logger, text)` followed by
`sentry_value_set_by_key` calls, in call order. -/
structure SentryEvent where
  level : SentryLevel
  logger : String
  message : String
  fields : List (String × SentryValue)
deriving DecidableEq, Repr

/-- Result of `sentry_value_new_breadcrumb(type, message)` followed by
`sentry_value_set_by_key` calls; `crumbType = none` is the `nullptr` type. -/
structure SentryBreadcrumb where
  crumbType : Option String
  message : String
  fields : List (String × SentryValue)
deriving DecidableEq, Repr

/-- The `sentry_options_t` built by `initializeSentry`. -/
structure SentryOptions where
  dsn : String
  databasePath : String
  release : String
  environment : String
  debug : Bool
deriving DecidableEq, Repr

/-- Disposition of a POSIX signal. `handleCrash resetHand` is a `sigaction` whose
`sa_handler` is `CrashHandler::handleCrash`; `resetHand` is the `SA_RESETHAND` flag. -/
inductive SigDisposition where
  | sigDfl
  | handleCrash (resetHand : Bool)
deriving DecidableEq, Repr

/-- Every call that leaves the handler: to the capture backend or to the platform. -/
inductive Effect where
  | sentryInit (options : SentryOptions)
  | sentrySetContext (key : String) (context : List (String × SentryValue))
  | sentryCaptureEvent (event : SentryEvent)
  | sentryAddBreadcrumb (crumb : SentryBreadcrumb)
  | sentryShutdown
  | sigaction (sig : Int) (resetHand : Bool)
  | signalDfl (sig : Int)
  | raise (sig : Int)
  | setUnhandledExceptionFilter
deriving DecidableEq, Repr

/-- Whether an effect is a call to the capture backend (a `sentry_*` function that
takes the backend's state, as opposed to a platform call). -/
def Effect.isBackendCall : Effect → Bool
  | .sentryInit _ => true
  | .sentrySetContext _ _ => true
  | .sentryCaptureEvent _ => true
  | .sentryAddBreadcrumb _ => true
  | .sentryShutdown => true
  | _ => false

/-- Whether an effect submits something to the capture backend: an event
(`sentry_capture_event`) or a breadcrumb (`sentry_add_breadcrumb`). -/
def Effect.isSubmission : Effect → Bool
  | .sentryCaptureEvent _ => true
  | .sentryAddBreadcrumb _ => true
  | _ => false

/-- Whether an effect installs a fatal-failure handler. -/
def Effect.isHandlerInstallation : Effect → Bool
  | .sigaction _ _ => true
  | .setUnhandledExceptionFilter => true
  | _ => false

/-- Whether an effect submits an event (`sentry_capture_event`). -/
def Effect.isEventSubmission : Effect → Bool
  | .sentryCaptureEvent _ => true
  | _ => false

/-! ## Build and run-time environment of the handler -/

/-- What the handler reads from its build and its surroundings. -/
structure Env where
  /-- `Q_OS_WIN` is defined. -/
  windows : Bool
  /-- `QT_DEBUG` is defined. -/
  qtDebug : Bool
  /-- The `APP_VERSION` string literal. -/
  appVersion : String
  /-- The `APP_BUILD` string literal. -/
  appBuild : String
  /-- `getenv("MUDLET_SENTRY_DSN")`; `none` is a null pointer. -/
  envDsn : Option String
  /-- Return value of `sentry_init`. -/
  sentryInitResult : Int
  /-- `qVersion()`. -/
  qtVersion : String
  /-- `QSysInfo::prettyProductName()`. -/
  osVersion : String
  /-- `QSysInfo::kernelVersion()`. -/
  osKernel : String
  /-- `QSysInfo::currentCpuArchitecture()`. -/
  cpuArch : String
deriving DecidableEq, Repr

/-- The signal numbers of `<signal.h>` (Linux values). -/
def SIGILL : Int := 4

/-- See `SIGILL`. -/
def SIGABRT : Int := 6

/-- See `SIGILL`. -/
def SIGFPE : Int := 8

/-- See `SIGILL`. -/
def SIGSEGV : Int := 11

/-- The file-scope constant `SENTRY_DSN`. -/
def SENTRY_DSN : String := "https://your-project-key@sentry.io/your-project-id"

/-- Windows `EXCEPTION_CONTINUE_SEARCH`. -/
def EXCEPTION_CONTINUE_SEARCH : Int := 0

/-- Conversion of an integer to `int32_t` (two's complement wrap-around). -/
def toInt32 (n : Int) : Int := (n + 2 ^ 31) % 2 ^ 32 - 2 ^ 31

/-- `QString::toUtf8().constData()` read as a C string: the text up to the first NUL. -/
def constData (s : String) : String := String.mk (s.data.takeWhile (fun c => c != Char.ofNat 0))

/-- `QString::contains(needle)`. -/
def qContains (s needle : String) : Bool :=
  s.data.tails.any (fun t => needle.data.isPrefixOf t)

/-! ## State of the process as far as `CrashHandler` is concerned -/

/-- The `CrashHandler` singleton together with what it acts on. -/
structure CrashHandler where
  mInitialized : Bool
  mUserConsented : Bool
  mDatabasePath : String
  /-- Dispositions set through `sigaction` / `signal`; a signal not listed has
  its default disposition. -/
  sigTable : List (Int × SigDisposition)
  /-- Whether `handleWindowsException` is the top-level exception filter. -/
  exceptionFilter : Bool
  /-- The signal that terminated the process, if one did. -/
  terminatedBy : Option Int
  /-- Calls made so far, oldest first. -/
  trace : List Effect
deriving DecidableEq, Repr

/-- State right after the constructor `CrashHandler::CrashHandler()`, where
`appDataLocation` is `QStandardPaths::writableLocation(QStandardPaths::AppDataLocation)`. -/
def CrashHandler.new (appDataLocation : String) : CrashHandler :=
  { mInitialized := false
    mUserConsented := false
    mDatabasePath := appDataLocation ++ "/crash-reports"
    sigTable := []
    exceptionFilter := false
    terminatedBy := none
    trace := [] }

namespace CrashHandler

/-- Appends one call to the trace. -/
def emit (s : CrashHandler) (e : Effect) : CrashHandler :=
  { s with trace := s.trace ++ [e] }

/-- Current disposition of `sig`. -/
def disposition (s : CrashHandler) (sig : Int) : SigDisposition :=
  match s.sigTable.lookup sig with
  | some d => d
  | none => SigDisposition.sigDfl

/-- Replaces the disposition of `sig` in the signal table. -/
def setDisposition (s : CrashHandler) (sig : Int) (d : SigDisposition) : CrashHandler :=
  { s with sigTable := (sig, d) :: s.sigTable.filter (fun p => p.1 != sig) }

/-- The call `sigaction(sig, &sa, nullptr)` with `sa.sa_handler = handleCrash`. -/
def sigactionHandleCrash (s : CrashHandler) (sig : Int) (resetHand : Bool) : CrashHandler :=
  (s.emit (Effect.sigaction sig resetHand)).setDisposition sig (SigDisposition.handleCrash resetHand)

/-- The call `signal(sig, SIG_DFL)`. -/
def signalSigDfl (s : CrashHandler) (sig : Int) : CrashHandler :=
  (s.emit (Effect.signalDfl sig)).setDisposition sig SigDisposition.sigDfl

/-- Embeds `CrashHandler::getSentryDsn`. -/
def getSentryDsn (env : Env) : String :=
  match env.envDsn with
  | some d => d
  | none => SENTRY_DSN

/-- Embeds `CrashHandler::getEnvironmentName`. -/
def getEnvironmentName (env : Env) : String :=
  if env.qtDebug then "development"
  else if qContains env.appBuild "-ptb" then "preview"
  else if qContains env.appBuild "-dev" then "development"
  else "production"

/-- Embeds `CrashHandler::setCommonContext`. -/
def setCommonContext (env : Env) (s : CrashHandler) : CrashHandler :=
  s.emit (Effect.sentrySetContext "app"
    [ ("app_version", SentryValue.string (constData env.appVersion)),
      ("app_build", SentryValue.string (constData env.appBuild)),
      ("qt_version", SentryValue.string env.qtVersion),
      ("os_version", SentryValue.string (constData env.osVersion)),
      ("os_kernel", SentryValue.string (constData env.osKernel)),
      ("cpu_arch", SentryValue.string (constData env.cpuArch)) ])

/-- Embeds `CrashHandler::initializeSentry`: the result of `sentry_init` only decides
whether `setCommonContext` runs (and what is logged); nothing is returned. -/
def initializeSentry (env : Env) (s : CrashHandler) : CrashHandler :=
  let options : SentryOptions :=
    { dsn := constData (getSentryDsn env)
      databasePath := constData s.mDatabasePath
      release := constData (env.appVersion ++ env.appBuild)
      environment := constData (getEnvironmentName env)
      debug := env.qtDebug }
  let s1 := s.emit (Effect.sentryInit options)
  if env.sentryInitResult = 0 then setCommonContext env s1 else s1

/-- Embeds `CrashHandler::setupPlatformHandlers`. -/
def setupPlatformHandlers (env : Env) (s : CrashHandler) : CrashHandler :=
  if env.windows then
    { s.emit Effect.setUnhandledExceptionFilter with exceptionFilter := true }
  else
    let s1 := s.sigactionHandleCrash SIGSEGV true
    let s2 := s1.sigactionHandleCrash SIGABRT true
    let s3 := s2.sigactionHandleCrash SIGFPE true
    s3.sigactionHandleCrash SIGILL true

/-- Embeds `CrashHandler::addBreadcrumb`; a call that leaves `category` out passes
`"default"`. -/
def addBreadcrumb (s : CrashHandler) (message : String) (category : String) : CrashHandler :=
  if !s.mInitialized || !s.mUserConsented then s
  else
    s.emit (Effect.sentryAddBreadcrumb
      { crumbType := none
        message := constData message
        fields := [("category", SentryValue.string (constData category))] })

/-- Embeds `CrashHandler::captureMessage`. -/
def captureMessage (s : CrashHandler) (message : String) : CrashHandler :=
  if !s.mInitialized || !s.mUserConsented then s
  else
    s.emit (Effect.sentryCaptureEvent
      { level := SentryLevel.info
        logger := "message"
        message := constData message
        fields := [] })

/-- Embeds `CrashHandler::captureError`; a call that leaves `function` out passes the
empty string. -/
def captureError (s : CrashHandler) (error : String) (function : String) : CrashHandler :=
  if !s.mInitialized || !s.mUserConsented then s
  else
    s.emit (Effect.sentryCaptureEvent
      { level := SentryLevel.error
        logger := "error"
        message := constData error
        fields :=
          if !function.isEmpty then [("function", SentryValue.string (constData function))]
          else [] })

/-- Embeds `CrashHandler::initialize`. -/
def initializeHandler (env : Env) (s : CrashHandler) : CrashHandler :=
  if s.mInitialized || !s.mUserConsented then s
  else
    let s1 := initializeSentry env s
    let s2 := setupPlatformHandlers env s1
    let s3 := { s2 with mInitialized := true }
    s3.addBreadcrumb "Crash handler initialized" "system"

/-- Embeds `CrashHandler::shutdown`: a breadcrumb, `sentry_shutdown()`, the flag. It
makes no `sigaction`, `signal` or `SetUnhandledExceptionFilter` call; the capture backend
is taken to leave the dispositions set by `setupPlatformHandlers` as they are. -/
def shutdown (s : CrashHandler) : CrashHandler :=
  if s.mInitialized then
    let s1 := s.addBreadcrumb "Crash handler shutting down" "system"
    let s2 := s1.emit Effect.sentryShutdown
    { s2 with mInitialized := false }
  else s

/-- Embeds `CrashHandler::setUserConsent`. -/
def setUserConsent (env : Env) (s : CrashHandler) (enabled : Bool) : CrashHandler :=
  let s1 := { s with mUserConsented := enabled }
  if enabled && !s1.mInitialized then initializeHandler env s1
  else if !enabled && s1.mInitialized then shutdown s1
  else s1

/-- Default action of a signal whose disposition is `SIG_DFL` (Linux numbering): the
process is terminated, except for the signals that are ignored, stop or continue it
(`SIGCHLD` 17, `SIGCONT` 18, `SIGSTOP` 19, `SIGTSTP` 20, `SIGTTIN` 21, `SIGTTOU` 22,
`SIGURG` 23, `SIGWINCH` 28). -/
def defaultActionTerminates (sig : Int) : Bool :=
  !([17, 18, 19, 20, 21, 22, 23, 28] : List Int).contains sig

/-- The default action taken on `sig`. -/
def defaultAction (s : CrashHandler) (sig : Int) : CrashHandler :=
  if defaultActionTerminates sig then { s with terminatedBy := some sig } else s

/-- The first statements of `CrashHandler::handleCrash(int signal)`, which are
well-formed as written: the fatal event is built, its `signal` member set, and the event
handed to `sentry_capture_event`. Neither `mInitialized` nor `mUserConsented` is read. -/
def handleCrashCapture (s : CrashHandler) (signal : Int) : CrashHandler :=
  let event : SentryEvent :=
    { level := SentryLevel.fatal
      logger := "crash"
      message := "Application crashed"
      fields := [("signal", SentryValue.int32 (toInt32 signal))] }
  s.emit (Effect.sentryCaptureEvent event)

/-- The whole of `CrashHandler::handleCrash(int signal)` under a repair. As written, the
statement `signal(signal, SIG_DFL);` is ill-formed: inside the function `signal` names
the `int` parameter, which hides `::signal`, so the source restores nothing. This
definition reads the statement as the call `::signal(signal, SIG_DFL)` that the comment
above it announces (restore default handler and re-raise signal); it describes the
repaired handler, not the source. `raiseFn` is the delivery by the platform of a raised
signal; `none` means that delivery did not finish. -/
def handleCrash (raiseFn : CrashHandler → Int → Option CrashHandler) (s : CrashHandler)
    (signal : Int) : Option CrashHandler :=
  let s1 := handleCrashCapture s signal
  let s2 := s1.signalSigDfl signal
  raiseFn (s2.emit (Effect.raise signal)) signal

/-- Delivery of signal `sig` to a process whose handler is the repaired `handleCrash`. A
terminated process takes no signal; with the default disposition the default action is
taken; with `handleCrash` installed the disposition is first reset when `SA_RESETHAND`
is set, then the handler runs, and its `raise` is a nested delivery. `fuel` bounds the
nesting of deliveries. -/
def deliver : Nat → CrashHandler → Int → Option CrashHandler
  | 0, _, _ => none
  | fuel + 1, s, sig =>
    if s.terminatedBy.isSome then some s
    else
      match s.disposition sig with
      | SigDisposition.sigDfl => some (defaultAction s sig)
      | SigDisposition.handleCrash resetHand =>
        let s1 := if resetHand then s.setDisposition sig SigDisposition.sigDfl else s
        handleCrash (deliver fuel) s1 sig

/-- Embeds `CrashHandler::handleWindowsException`; `exceptionCode` is
`exceptionInfo->ExceptionRecord->ExceptionCode`. Returns the filter's result. -/
def handleWindowsException (s : CrashHandler) (exceptionCode : Int) : CrashHandler × Int :=
  let event : SentryEvent :=
    { level := SentryLevel.fatal
      logger := "crash"
      message := "Windows exception occurred"
      fields := [("exception_code", SentryValue.int32 (toInt32 exceptionCode))] }
  (s.emit (Effect.sentryCaptureEvent event), EXCEPTION_CONTINUE_SEARCH)

/-- An unhandled Windows exception reaches the top-level filter when it is installed. -/
def unhandledException (s : CrashHandler) (exceptionCode : Int) : CrashHandler :=
  if s.exceptionFilter then (handleWindowsException s exceptionCode).1 else s

/-- The public operations of `CrashHandler`. -/
inductive Op where
  | init
  | shutdown
  | setUserConsent (enabled : Bool)
  | captureMessage (message : String)
  | captureError (error function : String)
  | addBreadcrumb (message category : String)
deriving DecidableEq, Repr

/-- One call of a public operation. -/
def step (s : CrashHandler) (c : Env × Op) : CrashHandler :=
  match c.2 with
  | Op.init => initializeHandler c.1 s
  | Op.shutdown => shutdown s
  | Op.setUserConsent enabled => setUserConsent c.1 s enabled
  | Op.captureMessage message => captureMessage s message
  | Op.captureError error function => captureError s error function
  | Op.addBreadcrumb message category => addBreadcrumb s message category

/-- A sequence of calls, each made in its own environment. -/
def run (s : CrashHandler) (calls : List (Env × Op)) : CrashHandler :=
  calls.foldl step s

/-- States the process can be in after the constructor and any number of calls of the
public operations. -/
def Reachable (s : CrashHandler) : Prop :=
  ∃ (appDataLocation : String) (calls : List (Env × Op)),
    s = run (CrashHandler.new appDataLocation) calls

/-- A small POSIX release build in which `sentry_init` succeeds. -/
def exampleEnv : Env :=
  { windows := false
    qtDebug := false
    appVersion := "4.17.2"
    appBuild := ""
    envDsn := none
    sentryInitResult := 0
    qtVersion := "5.15"
    osVersion := "Linux"
    osKernel := "6.1"
    cpuArch := "x86_64" }

/-- The build of `exampleEnv` in a run where `sentry_init` fails with result 1. -/
def failingEnv : Env := { exampleEnv with sentryInitResult := 1 }

/-- The four signals `setupPlatformHandlers` installs `handleCrash` for. -/
def fatalSignals : List Int := [SIGSEGV, SIGABRT, SIGFPE, SIGILL]

/-- The event `handleCrash(sig)` builds. -/
def crashEvent (sig : Int) : SentryEvent :=
  { level := SentryLevel.fatal
    logger := "crash"
    message := "Application crashed"
    fields := [("signal", SentryValue.int32 sig)] }

/-- A fresh controller after `setUserConsent(true); shutdown()`. -/
def consentedThenShutDown : CrashHandler :=
  run (CrashHandler.new "/d") [(exampleEnv, Op.setUserConsent true), (exampleEnv, Op.shutdown)]

/-- A fresh controller after `setUserConsent(true); setUserConsent(false)`. -/
def consentGrantedThenWithdrawn : CrashHandler :=
  setUserConsent exampleEnv (setUserConsent exampleEnv (CrashHandler.new "/d") true) false

/-- A fresh controller after `setUserConsent(true)` in a run where `sentry_init` fails. -/
def armedWithFailedBackend : CrashHandler :=
  setUserConsent failingEnv (CrashHandler.new "/d") true

end CrashHandler

/-! ## `CrashReporter`: the crash-report directory, the network and the emitted signals -/

/-- An entry directly inside `<AppDataLocation>/crash-reports` that `QFile::exists`
and the `QDir::Files` listing see. -/
structure ReportFile where
  fileName : String
  /-- `QFileInfo::lastModified()`, in milliseconds. -/
  lastModified : Int
  /-- The bytes `QFile::readAll()` returns once the file is open. -/
  content : List Nat
  /-- Whether `QFile::open(QIODevice::ReadOnly)` succeeds on the entry (it does not
  without read permission, for instance). -/
  readable : Bool
deriving DecidableEq, Repr

/-- Body of a `QHttpPart`: raw bytes, or the `QJsonObject` whose `toJson()` text is the
body (its members in assignment order; all member values here are strings). -/
inductive PartBody where
  | raw (bytes : List Nat)
  | json (object : List (String × String))
deriving DecidableEq, Repr

/-- A `QHttpPart` with the two headers the reporter sets. -/
structure HttpPart where
  contentType : String
  contentDisposition : String
  body : PartBody
deriving DecidableEq, Repr

/-- A `QNetworkReply` returned by `mNetworkManager->post(request, multiPart)`, with the
`crashId` captured by the two lambdas connected to it. `handle` tells replies apart. -/
structure NetworkReply where
  handle : Nat
  url : String
  multiPart : List HttpPart
  crashId : String
deriving DecidableEq, Repr

/-- The Qt signals of `CrashReporter`. -/
inductive ReporterSignal where
  | crashReportUploaded (crashId : String) (success : Bool)
  | uploadProgress (crashId : String) (bytesSent bytesTotal : Int)
deriving DecidableEq, Repr

/-- What the reporter reads from its build and its surroundings. -/
structure ReporterEnv where
  /-- `QStandardPaths::writableLocation(QStandardPaths::AppDataLocation)`. -/
  appDataLocation : String
  /-- The `APP_VERSION` string literal. -/
  appVersion : String
  /-- The `APP_BUILD` string literal. -/
  appBuild : String
  /-- The macro `SENTRY_PROJECT_ID`, as text. -/
  sentryProjectId : String
  /-- The macro `SENTRY_PUBLIC_KEY`, as text. -/
  sentryPublicKey : String
  /-- `QDateTime::toString(Qt::ISODate)`. -/
  toIsoDate : Int → String

/-- The `CrashReporter` singleton together with what it acts on. -/
structure CrashReporter where
  mUploadUrl : String
  mInitialized : Bool
  mLastCleanup : Int
  /-- What `QDateTime::currentDateTime()` returns, in milliseconds. -/
  clock : Int
  /-- The regular files of the crash-report directory, in listing order. -/
  reports : List ReportFile
  /-- Every reply obtained from `mNetworkManager->post`, oldest first: one per request. -/
  posted : List NetworkReply
  /-- The replies whose `finished` signal has not fired yet. -/
  inFlight : List NetworkReply
  /-- Signals emitted so far, oldest first. -/
  emitted : List ReporterSignal
deriving DecidableEq, Repr

/-- `QNetworkReply::NoError`. -/
def NoError : Nat := 0

/-- Milliseconds in a day. -/
def msPerDay : Int := 86400000

/-- `QDateTime::addDays(ndays)`, on a time line without clock changes. -/
def addDays (t ndays : Int) : Int := t + ndays * msPerDay

/-- `QString::chop(n)`: removes the last `n` characters (all of them when there are
fewer). -/
def chop (s : String) (n : Nat) : String := String.mk (s.data.take (s.data.length - n))

/-- Lower-case form of an ASCII letter; other characters are unchanged. -/
def asciiLower (c : Char) : Char :=
  if 65 ≤ c.toNat ∧ c.toNat ≤ 90 then Char.ofNat (c.toNat + 32) else c

/-- The name filter `"*.dmp"` of `QDir::entryList`: a name matches when it ends in
`.dmp`; without `QDir::CaseSensitive` the comparison ignores case. -/
def matchesDmpFilter (name : String) : Bool :=
  (".dmp".data).isSuffixOf (name.data.map asciiLower)

/-- State right after the constructor `CrashReporter::CrashReporter()`; the two `%n`
markers of the URL pattern are filled by `.arg(SENTRY_PROJECT_ID).arg(SENTRY_PUBLIC_KEY)`
(a project id without `%` markers of its own). -/
def CrashReporter.new (env : ReporterEnv) (clock : Int) (reports : List ReportFile) :
    CrashReporter :=
  { mUploadUrl :=
      "https://sentry.io/api/" ++ env.sentryProjectId ++ "/minidump/?sentry_key="
        ++ env.sentryPublicKey
    mInitialized := false
    mLastCleanup := clock
    clock := clock
    reports := reports
    posted := []
    inFlight := []
    emitted := [] }

namespace CrashReporter

/-- The directory both listing functions open. -/
def crashDir (env : ReporterEnv) : String := env.appDataLocation ++ "/crash-reports"

/-- `QDir::filePath(fileName)` for the crash-report directory. -/
def filePath (env : ReporterEnv) (fileName : String) : String :=
  crashDir env ++ "/" ++ fileName

/-- Embeds `CrashReporter::getReportPath`. -/
def getReportPath (env : ReporterEnv) (crashId : String) : String :=
  env.appDataLocation ++ "/crash-reports/" ++ crashId ++ ".dmp"

/-- `QFile::exists(path)`. -/
def fileExists (env : ReporterEnv) (w : CrashReporter) (path : String) : Bool :=
  w.reports.any (fun f => filePath env f.fileName == path)

/-- `QFile::open(QIODevice::ReadOnly)` followed by `readAll()`; `none` when `open`
fails: there is no entry at the path, or the entry cannot be opened for reading. -/
def readAll (env : ReporterEnv) (w : CrashReporter) (path : String) : Option (List Nat) :=
  match w.reports.find? (fun f => filePath env f.fileName == path) with
  | some f => if f.readable then some f.content else none
  | none => none

/-- `QFileInfo(path).lastModified()`; `none` is the invalid date-time of a missing file. -/
def lastModifiedOf (env : ReporterEnv) (w : CrashReporter) (path : String) : Option Int :=
  (w.reports.find? (fun f => filePath env f.fileName == path)).map (fun f => f.lastModified)

/-- The effect of a `QFile::remove(path)` that succeeds: the file is gone afterwards
(nothing changes where there is none). A `QFile::remove` that fails changes nothing;
the source never looks at the result. `handleUploadFinished` takes the outcome of its
removal as an input; `cleanOldReports` is embedded for removals that succeed. -/
def removeFile (env : ReporterEnv) (w : CrashReporter) (path : String) : CrashReporter :=
  { w with reports := w.reports.filter (fun f => !(filePath env f.fileName == path)) }

/-- `dir.entryList(filters, QDir::Files)` with `filters = ["*.dmp"]`: the names of the
files of the directory that match the filter, in listing order. -/
def entryList (w : CrashReporter) : List String :=
  (w.reports.map (fun f => f.fileName)).filter matchesDmpFilter

/-- Emits a Qt signal. -/
def emitSignal (w : CrashReporter) (sig : ReporterSignal) : CrashReporter :=
  { w with emitted := w.emitted ++ [sig] }

/-- Embeds `CrashReporter::hasValidReport`. -/
def hasValidReport (env : ReporterEnv) (w : CrashReporter) (crashId : String) : Bool :=
  fileExists env w (getReportPath env crashId)

/-- Embeds `CrashReporter::addMetadata`. -/
def addMetadata (env : ReporterEnv) (w : CrashReporter) (multiPart : List HttpPart)
    (crashId : String) : List HttpPart :=
  let metadata : List (String × String) :=
    [ ("platform", "native"),
      ("release", env.appVersion ++ env.appBuild),
      ("timestamp", env.toIsoDate w.clock),
      ("event_id", crashId) ]
  let metadataPart : HttpPart :=
    { contentType := "application/json"
      contentDisposition := "form-data; name=\"sentry\""
      body := PartBody.json metadata }
  multiPart ++ [metadataPart]

/-- Embeds `CrashReporter::prepareUploadData`. -/
def prepareUploadData (env : ReporterEnv) (w : CrashReporter) (crashId : String)
    (multiPart : List HttpPart) : List HttpPart :=
  let reportPath := getReportPath env crashId
  match readAll env w reportPath with
  | none => multiPart
  | some bytes =>
    let crashPart : HttpPart :=
      { contentType := "application/octet-stream"
        contentDisposition :=
          "form-data; name=\"upload_file_minidump\"; filename=\"" ++ crashId ++ ".dmp\""
        body := PartBody.raw bytes }
    addMetadata env w (multiPart ++ [crashPart]) crashId

/-- Embeds `CrashReporter::uploadCrashReport`. The `QMutexLocker` holds `mUploadMutex`
from entry to return, so calls are serialised and nothing of the lock outlives a call;
the request is asynchronous: the reply stays in flight until its `finished` signal.
The result of `prepareUploadData` is not looked at: the request is posted with whatever
parts were added, none when the file could not be opened.

As written, `QNetworkRequest request(QUrl(mUploadUrl));` declares a function named
`request`, which makes the `post(request, multiPart)` after it ill-formed. The
embedding takes the evident reading, a request object for the URL `mUploadUrl`; what
precedes that line (the existence test and its early return) is embedded as written. -/
def uploadCrashReport (env : ReporterEnv) (w : CrashReporter) (crashId : String) :
    CrashReporter :=
  if !hasValidReport env w crashId then
    w.emitSignal (ReporterSignal.crashReportUploaded crashId false)
  else
    let multiPart := prepareUploadData env w crashId []
    let reply : NetworkReply :=
      { handle := w.posted.length
        url := w.mUploadUrl
        multiPart := multiPart
        crashId := crashId }
    { w with posted := w.posted ++ [reply], inFlight := w.inFlight ++ [reply] }

/-- Embeds `CrashReporter::handleUploadFinished`; `error` is `reply->error()` and
`removed` is the result of `QFile::remove(reportPath)`, which the source discards: the
file is gone only when the removal succeeded. -/
def handleUploadFinished (env : ReporterEnv) (w : CrashReporter) (error : Nat)
    (crashId : String) (removed : Bool) : CrashReporter :=
  let success := error == NoError
  let w1 :=
    if success then
      if removed then removeFile env w (getReportPath env crashId) else w
    else w
  w1.emitSignal (ReporterSignal.crashReportUploaded crashId success)

/-- The `finished` signal of `reply` fires with `reply->error() = error`: the lambda
connected in `uploadCrashReport` runs `handleUploadFinished(reply, crashId)`, whose
`deleteLater` ends the reply. `removed` is the outcome of the removal made there. -/
def finished (env : ReporterEnv) (w : CrashReporter) (reply : NetworkReply) (error : Nat)
    (removed : Bool) : CrashReporter :=
  let w1 := handleUploadFinished env w error reply.crashId removed
  { w1 with inFlight := w1.inFlight.filter (fun r => !(r.handle == reply.handle)) }

/-- The `uploadProgress` signal of `reply` fires: the lambda connected in
`uploadCrashReport` forwards it with the captured `crashId`. -/
def progress (w : CrashReporter) (reply : NetworkReply) (bytesSent bytesTotal : Int) :
    CrashReporter :=
  w.emitSignal (ReporterSignal.uploadProgress reply.crashId bytesSent bytesTotal)

/-- Embeds `CrashReporter::checkPendingReports`. -/
def checkPendingReports (env : ReporterEnv) (w : CrashReporter) : CrashReporter :=
  (entryList w).foldl (fun acc file => uploadCrashReport env acc (chop file 4)) w

/-- Embeds `CrashReporter::cleanOldReports(int daysToKeep)`; `-daysToKeep` is computed
in `int`. A file is removed when its valid modification time precedes the cut-off
(removing at a path where no file is changes nothing either way). -/
def cleanOldReports (env : ReporterEnv) (w : CrashReporter) (daysToKeep : Int) :
    CrashReporter :=
  let cutoffDate := addDays w.clock (toInt32 (-daysToKeep))
  let w1 := (entryList w).foldl
    (fun acc file =>
      let path := filePath env file
      match lastModifiedOf env acc path with
      | some t => if t < cutoffDate then removeFile env acc path else acc
      | none => acc)
    w
  { w1 with mLastCleanup := w1.clock }

/-- Embeds `CrashReporter::initialize`; `cleanOldReports()` uses the default of 30 days. -/
def initializeReporter (env : ReporterEnv) (w : CrashReporter) : CrashReporter :=
  if w.mInitialized then w
  else
    let w1 := cleanOldReports env w 30
    let w2 := checkPendingReports env w1
    { w2 with mInitialized := true }

/-- Number of requests posted so far for `crashId`. -/
def uploadsFor (w : CrashReporter) (crashId : String) : Nat :=
  (w.posted.filter (fun r => r.crashId == crashId)).length

/-- A small reporter environment. -/
def exampleEnv : ReporterEnv :=
  { appDataLocation := "/home/u/.config/mudlet"
    appVersion := "4.17.2"
    appBuild := ""
    sentryProjectId := "1"
    sentryPublicKey := "k"
    toIsoDate := fun t => toString t }

/-- The artifact `A1B2`, four bytes long. -/
def reportA1B2 : ReportFile :=
  { fileName := "A1B2.dmp", lastModified := 0, content := [77, 68, 77, 80], readable := true }

/-- A fresh reporter whose directory holds the artifact `A1B2`. -/
def withA1B2 : CrashReporter := CrashReporter.new exampleEnv 0 [reportA1B2]

/-- The reporter after `uploadCrashReport("A1B2")`: the upload is in flight. -/
def uploadingA1B2 : CrashReporter := uploadCrashReport exampleEnv withA1B2 "A1B2"

/-- The reply of that upload. -/
def replyA1B2 : NetworkReply :=
  { handle := 0
    url := withA1B2.mUploadUrl
    multiPart := prepareUploadData exampleEnv withA1B2 "A1B2" []
    crashId := "A1B2" }

/-- The reporter after a second `uploadCrashReport("A1B2")` made while the first upload
is in flight. -/
def duplicateUploadsA1B2 : CrashReporter := uploadCrashReport exampleEnv uploadingA1B2 "A1B2"

/-- The reply of that second upload. -/
def secondReplyA1B2 : NetworkReply :=
  { handle := 1
    url := withA1B2.mUploadUrl
    multiPart := prepareUploadData exampleEnv uploadingA1B2 "A1B2" []
    crashId := "A1B2" }

/-- Both uploads of `A1B2` in flight, then the first completes with `NoError` and its
removal of the file succeeds. -/
def firstOfTwoSucceeded : CrashReporter :=
  finished exampleEnv duplicateUploadsA1B2 replyA1B2 NoError true

/-- After that, the second upload completes with error 203
(`QNetworkReply::ContentNotFoundError`). -/
def secondOfTwoFailed : CrashReporter :=
  finished exampleEnv firstOfTwoSucceeded secondReplyA1B2 203 false

/-- The upload of `A1B2` completes with `NoError`, but the removal of the file fails. -/
def succeededButNotRemoved : CrashReporter :=
  finished exampleEnv uploadingA1B2 replyA1B2 NoError false

/-- An entry `A1B2.dmp` that exists and cannot be opened for reading. -/
def reportA1B2Unreadable : ReportFile :=
  { fileName := "A1B2.dmp", lastModified := 0, content := [77, 68, 77, 80], readable := false }

/-- A fresh reporter whose directory holds the unreadable `A1B2.dmp`. -/
def withUnreadableA1B2 : CrashReporter := CrashReporter.new exampleEnv 0 [reportA1B2Unreadable]

end CrashReporter

/-! ## The process: both singletons -/

/-- The two singletons of one process. -/
structure Process where
  handler : CrashHandler
  reporter : CrashReporter

namespace Process

/-- `CrashReporter::uploadCrashReport` run in the process: it reads and writes nothing
of `CrashHandler` (`CrashReporter.cpp` includes `CrashHandler.h` and uses none of it). -/
def uploadCrashReport (env : ReporterEnv) (p : Process) (crashId : String) : Process :=
  { p with reporter := CrashReporter.uploadCrashReport env p.reporter crashId }

/-- `CrashReporter::checkPendingReports` run in the process. -/
def checkPendingReports (env : ReporterEnv) (p : Process) : Process :=
  { p with reporter := CrashReporter.checkPendingReports env p.reporter }

/-- `CrashReporter::initialize` run in the process. -/
def initializeReporter (env : ReporterEnv) (p : Process) : Process :=
  { p with reporter := CrashReporter.initializeReporter env p.reporter }

/-- A process whose controller was just constructed (consent is off) and whose
crash-report directory holds the artifact `A1B2`. -/
def unconsentedWithA1B2 : Process :=
  { handler := CrashHandler.new CrashReporter.exampleEnv.appDataLocation
    reporter := CrashReporter.withA1B2 }

end Process

end Mudlet


/-! ## Theorems about `CrashHandler` -/

namespace Mudlet

namespace CrashHandler

theorem captureMessage_of_gate_closed (s : CrashHandler) (message : String)
    (h : ¬ (s.mInitialized = true ∧ s.mUserConsented = true)) : captureMessage s message = s := by
  unfold captureMessage
  cases hi : s.mInitialized <;> cases hc : s.mUserConsented <;> simp_all

theorem captureError_of_gate_closed (s : CrashHandler) (error function : String)
    (h : ¬ (s.mInitialized = true ∧ s.mUserConsented = true)) :
    captureError s error function = s := by
  unfold captureError
  cases hi : s.mInitialized <;> cases hc : s.mUserConsented <;> simp_all

theorem addBreadcrumb_of_gate_closed (s : CrashHandler) (message category : String)
    (h : ¬ (s.mInitialized = true ∧ s.mUserConsented = true)) :
    addBreadcrumb s message category = s := by
  unfold addBreadcrumb
  cases hi : s.mInitialized <;> cases hc : s.mUserConsented <;> simp_all

theorem captureMessage_of_gate_open (s : CrashHandler) (message : String)
    (hi : s.mInitialized = true) (hc : s.mUserConsented = true) :
    captureMessage s message =
      { s with trace := s.trace ++ [Effect.sentryCaptureEvent
          { level := SentryLevel.info, logger := "message", message := constData message,
            fields := [] }] } := by
  simp [captureMessage, hi, hc, emit]

theorem captureError_of_gate_open (s : CrashHandler) (error function : String)
    (hi : s.mInitialized = true) (hc : s.mUserConsented = true) :
    captureError s error function =
      { s with trace := s.trace ++ [Effect.sentryCaptureEvent
          { level := SentryLevel.error, logger := "error", message := constData error,
            fields := if !function.isEmpty then
              [("function", SentryValue.string (constData function))] else [] }] } := by
  simp [captureError, hi, hc, emit]

theorem addBreadcrumb_of_gate_open (s : CrashHandler) (message category : String)
    (hi : s.mInitialized = true) (hc : s.mUserConsented = true) :
    addBreadcrumb s message category =
      { s with trace := s.trace ++ [Effect.sentryAddBreadcrumb
          { crumbType := none, message := constData message,
            fields := [("category", SentryValue.string (constData category))] }] } := by
  simp [addBreadcrumb, hi, hc, emit]

/-- Flags after `setUserConsent(false)`: neither initialized nor consented. -/
theorem setUserConsent_false_flags (env : Env) (s : CrashHandler) :
    (setUserConsent env s false).mInitialized = false ∧
      (setUserConsent env s false).mUserConsented = false := by
  cases hi : s.mInitialized <;> cases hc : s.mUserConsented <;>
    simp [setUserConsent, shutdown, addBreadcrumb, emit, hi, hc]

/-- Flags after `initialize()` or `setUserConsent(true)` on an unarmed controller. -/
theorem initializeHandler_flags (env : Env) (s : CrashHandler)
    (hc : s.mUserConsented = true) :
    (initializeHandler env s).mInitialized = true ∧
      (initializeHandler env s).mUserConsented = true := by
  cases hi : s.mInitialized <;> cases hw : env.windows <;>
    by_cases hr : env.sentryInitResult = 0 <;>
    simp [initializeHandler, initializeSentry, setCommonContext, setupPlatformHandlers,
      sigactionHandleCrash, setDisposition, addBreadcrumb, emit, hi, hc, hw, hr]

theorem setUserConsent_true_flags (env : Env) (s : CrashHandler) :
    (setUserConsent env s true).mInitialized = true ∧
      (setUserConsent env s true).mUserConsented = true := by
  cases hi : s.mInitialized
  · have h := initializeHandler_flags env { s with mUserConsented := true } rfl
    simpa [setUserConsent, hi] using h
  · simp [setUserConsent, hi]

/-- C1: `captureMessage`, `captureError` and `addBreadcrumb` leave the whole state
(trace of backend calls included) unchanged unless the controller is both initialized
and consented; when both hold, each call changes nothing but the trace, to which it
appends exactly one submission to the backend. After `setUserConsent(false)`,
`captureMessage("x")` is such a no-op, and after a following `setUserConsent(true)`,
with no call of `initialize()`, `captureMessage("x")` appends exactly one event. -/
theorem capture_calls_double_gated (env : Env) (s : CrashHandler)
    (message function category : String) :
    (¬ (s.mInitialized = true ∧ s.mUserConsented = true) →
      captureMessage s message = s ∧ captureError s message function = s ∧
        addBreadcrumb s message category = s) ∧
    (s.mInitialized = true ∧ s.mUserConsented = true →
      (∃ e, Effect.isSubmission e = true ∧
        captureMessage s message = { s with trace := s.trace ++ [e] }) ∧
      (∃ e, Effect.isSubmission e = true ∧
        captureError s message function = { s with trace := s.trace ++ [e] }) ∧
      (∃ e, Effect.isSubmission e = true ∧
        addBreadcrumb s message category = { s with trace := s.trace ++ [e] })) ∧
    captureMessage (setUserConsent env s false) "x" = setUserConsent env s false ∧
    (∃ event,
      captureMessage (setUserConsent env (captureMessage (setUserConsent env s false) "x") true)
          "x" =
        { setUserConsent env (captureMessage (setUserConsent env s false) "x") true with
          trace :=
            (setUserConsent env (captureMessage (setUserConsent env s false) "x") true).trace
              ++ [Effect.sentryCaptureEvent event] }) := by
  refine ⟨fun h => ⟨?_, ?_, ?_⟩, fun h => ⟨?_, ?_, ?_⟩, ?_, ?_⟩
  · exact captureMessage_of_gate_closed s message h
  · exact captureError_of_gate_closed s message function h
  · exact addBreadcrumb_of_gate_closed s message category h
  · refine ⟨_, ?_, captureMessage_of_gate_open s message h.1 h.2⟩
    rfl
  · refine ⟨_, ?_, captureError_of_gate_open s message function h.1 h.2⟩
    rfl
  · refine ⟨_, ?_, addBreadcrumb_of_gate_open s message category h.1 h.2⟩
    rfl
  · apply captureMessage_of_gate_closed
    simp [(setUserConsent_false_flags env s).2]
  · exact ⟨_, captureMessage_of_gate_open _ "x" (setUserConsent_true_flags env _).1
      (setUserConsent_true_flags env _).2⟩

/-- C1 at a concrete state: a fresh controller in the example build; the message is
dropped while consent is off and submitted as one event once consent is on. -/
theorem capture_calls_double_gated_witness :
    captureMessage (CrashHandler.new "/d") "x" = CrashHandler.new "/d" ∧
    (captureMessage (setUserConsent exampleEnv (CrashHandler.new "/d") true) "x").trace =
      (setUserConsent exampleEnv (CrashHandler.new "/d") true).trace ++
        [Effect.sentryCaptureEvent
          { level := SentryLevel.info, logger := "message", message := "x", fields := [] }] :=
  ⟨((capture_calls_double_gated exampleEnv (CrashHandler.new "/d") "x" "" "default").1
      (by decide)).1, by decide⟩

/-! ### Flags, signal table and reachable states -/

theorem captureMessage_flags (s : CrashHandler) (message : String) :
    (captureMessage s message).mInitialized = s.mInitialized ∧
      (captureMessage s message).mUserConsented = s.mUserConsented := by
  unfold captureMessage emit
  split <;> simp

theorem captureError_flags (s : CrashHandler) (error function : String) :
    (captureError s error function).mInitialized = s.mInitialized ∧
      (captureError s error function).mUserConsented = s.mUserConsented := by
  unfold captureError emit
  split <;> simp

theorem addBreadcrumb_flags (s : CrashHandler) (message category : String) :
    (addBreadcrumb s message category).mInitialized = s.mInitialized ∧
      (addBreadcrumb s message category).mUserConsented = s.mUserConsented := by
  unfold addBreadcrumb emit
  split <;> simp

theorem shutdown_flags (s : CrashHandler) :
    (shutdown s).mInitialized = false ∧ (shutdown s).mUserConsented = s.mUserConsented := by
  cases hi : s.mInitialized <;> cases hc : s.mUserConsented <;>
    simp [shutdown, addBreadcrumb, emit, hi, hc]

/-- The invariant of the two flags: an initialized controller is a consented one. -/
theorem step_preserves_armed_imp_consented (s : CrashHandler) (c : Env × Op)
    (h : s.mInitialized = true → s.mUserConsented = true) :
    (step s c).mInitialized = true → (step s c).mUserConsented = true := by
  obtain ⟨env, op⟩ := c
  cases op with
  | init =>
    intro hi
    cases hc : s.mUserConsented
    · cases hi0 : s.mInitialized
      · simp [step, initializeHandler, hc, hi0] at hi
      · simp [h hi0] at hc
    · cases hi0 : s.mInitialized
      · exact (initializeHandler_flags env s hc).2
      · simpa [step, initializeHandler, hi0] using hc
  | shutdown =>
    intro hi
    simp [step, (shutdown_flags s).1] at hi
  | setUserConsent enabled =>
    intro hi
    cases enabled
    · simp [step, (setUserConsent_false_flags env s).1] at hi
    · exact (setUserConsent_true_flags env s).2
  | captureMessage message =>
    intro hi
    simp only [step, (captureMessage_flags s message).1, (captureMessage_flags s message).2] at *
    exact h hi
  | captureError error function =>
    intro hi
    simp only [step, (captureError_flags s error function).1,
      (captureError_flags s error function).2] at *
    exact h hi
  | addBreadcrumb message category =>
    intro hi
    simp only [step, (addBreadcrumb_flags s message category).1,
      (addBreadcrumb_flags s message category).2] at *
    exact h hi

theorem run_preserves_armed_imp_consented (calls : List (Env × Op)) (s : CrashHandler)
    (h : s.mInitialized = true → s.mUserConsented = true) :
    (run s calls).mInitialized = true → (run s calls).mUserConsented = true := by
  induction calls generalizing s with
  | nil => simpa [run] using h
  | cons c rest ih =>
    have := ih (step s c) (step_preserves_armed_imp_consented s c h)
    simpa [run] using this

theorem reachable_armed_imp_consented (s : CrashHandler) (hr : Reachable s) :
    s.mInitialized = true → s.mUserConsented = true := by
  obtain ⟨dir, calls, rfl⟩ := hr
  exact run_preserves_armed_imp_consented calls (CrashHandler.new dir) (by simp [CrashHandler.new])

theorem lookup_filter_ne (l : List (Int × SigDisposition)) (a b : Int) (hab : a ≠ b) :
    (l.filter (fun p => p.1 != b)).lookup a = l.lookup a := by
  induction l with
  | nil => rfl
  | cons p rest ih =>
    obtain ⟨k, d⟩ := p
    by_cases hk : k = b
    · subst hk
      have hne : (a == k) = false := by simpa using hab
      simp [List.filter, List.lookup, hne, ih]
    · have hkb : (k != b) = true := by simpa using hk
      simp only [List.filter, hkb, List.lookup]
      rw [ih]

theorem disposition_setDisposition_same (s : CrashHandler) (sig : Int) (d : SigDisposition) :
    (s.setDisposition sig d).disposition sig = d := by
  simp [disposition, setDisposition, List.lookup]

theorem disposition_setDisposition_other (s : CrashHandler) (sig other : Int)
    (d : SigDisposition) (h : other ≠ sig) :
    (s.setDisposition sig d).disposition other = s.disposition other := by
  have hne : (other == sig) = false := by simpa using h
  simp [disposition, setDisposition, List.lookup, hne, lookup_filter_ne _ _ _ h]

theorem disposition_sigactionHandleCrash_same (s : CrashHandler) (sig : Int) (r : Bool) :
    (s.sigactionHandleCrash sig r).disposition sig = SigDisposition.handleCrash r :=
  disposition_setDisposition_same _ _ _

theorem disposition_sigactionHandleCrash_other (s : CrashHandler) (sig other : Int)
    (r : Bool) (h : other ≠ sig) :
    (s.sigactionHandleCrash sig r).disposition other = s.disposition other := by
  unfold sigactionHandleCrash
  rw [disposition_setDisposition_other _ _ _ _ h]
  rfl

/-- On POSIX, `setupPlatformHandlers` leaves `handleCrash` with `SA_RESETHAND` installed
for each of the four fatal signals. -/
theorem setupPlatformHandlers_disposition (env : Env) (s : CrashHandler)
    (hw : env.windows = false) (sig : Int) (hsig : sig ∈ fatalSignals) :
    (setupPlatformHandlers env s).disposition sig = SigDisposition.handleCrash true := by
  simp only [setupPlatformHandlers, hw, Bool.false_eq_true, if_false]
  simp only [fatalSignals, List.mem_cons, List.mem_singleton, List.not_mem_nil, or_false] at hsig
  rcases hsig with rfl | rfl | rfl | rfl
  · rw [disposition_sigactionHandleCrash_other _ _ _ _ (by decide),
      disposition_sigactionHandleCrash_other _ _ _ _ (by decide),
      disposition_sigactionHandleCrash_other _ _ _ _ (by decide),
      disposition_sigactionHandleCrash_same]
  · rw [disposition_sigactionHandleCrash_other _ _ _ _ (by decide),
      disposition_sigactionHandleCrash_other _ _ _ _ (by decide),
      disposition_sigactionHandleCrash_same]
  · rw [disposition_sigactionHandleCrash_other _ _ _ _ (by decide),
      disposition_sigactionHandleCrash_same]
  · rw [disposition_sigactionHandleCrash_same]

/-- The capture calls, `sentry_init`, `sentry_shutdown` and the flags do not touch the
signal table: only `sigTable` decides a disposition. -/
theorem disposition_congr (s t : CrashHandler) (h : t.sigTable = s.sigTable) (sig : Int) :
    t.disposition sig = s.disposition sig := by
  simp [disposition, h]

theorem addBreadcrumb_platform (s : CrashHandler) (message category : String) :
    (addBreadcrumb s message category).sigTable = s.sigTable ∧
      (addBreadcrumb s message category).exceptionFilter = s.exceptionFilter ∧
      (addBreadcrumb s message category).terminatedBy = s.terminatedBy := by
  unfold addBreadcrumb emit
  split <;> simp

theorem shutdown_platform (s : CrashHandler) :
    (shutdown s).sigTable = s.sigTable ∧ (shutdown s).exceptionFilter = s.exceptionFilter ∧
      (shutdown s).terminatedBy = s.terminatedBy := by
  unfold shutdown
  split
  · simp [emit, addBreadcrumb_platform]
  · simp

theorem initializeSentry_platform (env : Env) (s : CrashHandler) :
    (initializeSentry env s).sigTable = s.sigTable ∧
      (initializeSentry env s).exceptionFilter = s.exceptionFilter ∧
      (initializeSentry env s).terminatedBy = s.terminatedBy ∧
      (initializeSentry env s).mInitialized = s.mInitialized ∧
      (initializeSentry env s).mUserConsented = s.mUserConsented := by
  unfold initializeSentry setCommonContext emit
  split <;> simp

/-- What `initialize()` does when it runs (not initialized, consented). -/
theorem initializeHandler_armed (env : Env) (s : CrashHandler)
    (hi : s.mInitialized = false) (hc : s.mUserConsented = true) :
    (env.windows = false → ∀ sig ∈ fatalSignals,
      (initializeHandler env s).disposition sig = SigDisposition.handleCrash true) ∧
    (env.windows = true → (initializeHandler env s).exceptionFilter = true) ∧
    (initializeHandler env s).terminatedBy = s.terminatedBy ∧
    (∃ options rest, (initializeHandler env s).trace =
      s.trace ++ Effect.sentryInit options :: rest) := by
  refine ⟨fun hw sig hsig => ?_, fun hw => ?_, ?_, ?_⟩
  · have h := setupPlatformHandlers_disposition env (initializeSentry env s) hw sig hsig
    rw [← h]
    apply disposition_congr
    simp [initializeHandler, hi, hc, addBreadcrumb_platform]
  · simp [initializeHandler, hi, hc, addBreadcrumb_platform, setupPlatformHandlers, hw]
  · by_cases hw : env.windows = true
    · simp [initializeHandler, hi, hc, addBreadcrumb_platform, setupPlatformHandlers, hw,
        emit, initializeSentry_platform]
    · simp [initializeHandler, hi, hc, addBreadcrumb_platform, setupPlatformHandlers, hw,
        emit, initializeSentry_platform, sigactionHandleCrash, setDisposition]
  · by_cases hw : env.windows = true <;> by_cases hr : env.sentryInitResult = 0 <;>
      simp [initializeHandler, hi, hc, addBreadcrumb, setupPlatformHandlers, hw, hr,
        emit, initializeSentry, setCommonContext, sigactionHandleCrash, setDisposition]

/-- C7, the claim as stated fails: the state after `setUserConsent(true); shutdown()` is
reached through the public operations and has consent `true`, yet `setUserConsent(true)`
there is no no-op: it calls `sentry_init` and installs the four signal handlers again. -/
theorem setUserConsent_same_value_rearms_after_shutdown :
    Reachable consentedThenShutDown ∧
    consentedThenShutDown.mUserConsented = true ∧
    consentedThenShutDown.mInitialized = false ∧
    setUserConsent exampleEnv consentedThenShutDown true ≠ consentedThenShutDown ∧
    (((setUserConsent exampleEnv consentedThenShutDown true).trace.drop
        consentedThenShutDown.trace.length).filter Effect.isBackendCall).length = 3 ∧
    (((setUserConsent exampleEnv consentedThenShutDown true).trace.drop
        consentedThenShutDown.trace.length).filter Effect.isHandlerInstallation).length = 4 :=
  ⟨⟨"/d", [(exampleEnv, Op.setUserConsent true), (exampleEnv, Op.shutdown)], rfl⟩,
    by decide, by decide, by decide, by decide, by decide⟩

/-- C7 as amended: in every state reached through the public operations,
`setUserConsent(true)` while unarmed arms the controller (both flags set, `sentry_init`
called, the fatal handlers installed), `setUserConsent(false)` while armed disarms it
(flag cleared, `sentry_shutdown` the one call made), and `setUserConsent(b)` with `b`
the current consent value changes nothing when `b` is false or the controller is
armed. With consent `true` and the controller unarmed (after `shutdown()`), the first
case applies: `setUserConsent(true)` arms again. -/
theorem setUserConsent_transitions (env : Env) (s : CrashHandler) (hr : Reachable s) :
    (s.mInitialized = false →
      (setUserConsent env s true).mInitialized = true ∧
      (setUserConsent env s true).mUserConsented = true ∧
      (env.windows = false → ∀ sig ∈ fatalSignals,
        (setUserConsent env s true).disposition sig = SigDisposition.handleCrash true) ∧
      (env.windows = true → (setUserConsent env s true).exceptionFilter = true) ∧
      (∃ options rest, (setUserConsent env s true).trace =
        s.trace ++ Effect.sentryInit options :: rest)) ∧
    (s.mInitialized = true →
      (setUserConsent env s false).mInitialized = false ∧
      (setUserConsent env s false).mUserConsented = false ∧
      (setUserConsent env s false).trace = s.trace ++ [Effect.sentryShutdown]) ∧
    (s.mUserConsented = false → setUserConsent env s false = s) ∧
    (s.mUserConsented = true → s.mInitialized = true → setUserConsent env s true = s) := by
  have hinv := reachable_armed_imp_consented s hr
  refine ⟨fun hi => ?_, fun hi => ?_, fun hc => ?_, fun hc hi => ?_⟩
  · have harm := initializeHandler_armed env { s with mUserConsented := true } hi rfl
    have hflags := setUserConsent_true_flags env s
    have heq : setUserConsent env s true = initializeHandler env { s with mUserConsented := true } := by
      simp [setUserConsent, hi]
    refine ⟨hflags.1, hflags.2, ?_, ?_, ?_⟩
    · rw [heq]; exact harm.1
    · rw [heq]; exact harm.2.1
    · rw [heq]; exact harm.2.2.2
  · refine ⟨(setUserConsent_false_flags env s).1, (setUserConsent_false_flags env s).2, ?_⟩
    simp [setUserConsent, hi, shutdown, addBreadcrumb, emit]
  · have hi : s.mInitialized = false := by
      cases h : s.mInitialized
      · rfl
      · simp [hinv h] at hc
    cases s
    simp_all [setUserConsent]
  · cases s
    simp_all [setUserConsent]

/-- C7 as amended, at the fresh controller: granting consent arms it, and withdrawing
consent that was never given changes nothing. -/
theorem setUserConsent_transitions_witness :
    (setUserConsent exampleEnv (CrashHandler.new "/d") true).mInitialized = true ∧
    setUserConsent exampleEnv (CrashHandler.new "/d") false = CrashHandler.new "/d" :=
  ⟨((setUserConsent_transitions exampleEnv (CrashHandler.new "/d") ⟨"/d", [], rfl⟩).1
      (by decide)).1,
    (setUserConsent_transitions exampleEnv (CrashHandler.new "/d") ⟨"/d", [], rfl⟩).2.2.1
      (by decide)⟩

/-! ### The fatal-signal path -/

theorem fatalSignals_facts (sig : Int) (hsig : sig ∈ fatalSignals) :
    toInt32 sig = sig ∧ defaultActionTerminates sig = true := by
  simp only [fatalSignals, List.mem_cons, List.mem_singleton, List.not_mem_nil, or_false] at hsig
  rcases hsig with rfl | rfl | rfl | rfl <;> exact ⟨by decide, by decide⟩

theorem handleCrashCapture_fatal (s : CrashHandler) (sig : Int) (hsig : sig ∈ fatalSignals) :
    handleCrashCapture s sig =
      { s with trace := s.trace ++ [Effect.sentryCaptureEvent (crashEvent sig)] } := by
  simp [handleCrashCapture, crashEvent, emit, (fatalSignals_facts sig hsig).1]

/-- The repaired handler (see `handleCrash`), run in a live process for one of the four
fatal signals, with fuel for the nested delivery of its `raise`: one
`sentry_capture_event` of the fatal event carrying the signal number, then
`signal(sig, SIG_DFL)`, then `raise(sig)`, on which the default action terminates the
process. This is what the restore statement would give once it is well-formed. -/
theorem handleCrash_result (fuel : Nat) (s : CrashHandler) (sig : Int)
    (hsig : sig ∈ fatalSignals) (halive : s.terminatedBy = none) :
    ∃ s1, handleCrash (deliver (fuel + 1)) s sig = some s1 ∧
      s1.trace = s.trace ++
        [Effect.sentryCaptureEvent (crashEvent sig), Effect.signalDfl sig, Effect.raise sig] ∧
      s1.disposition sig = SigDisposition.sigDfl ∧
      s1.terminatedBy = some sig ∧
      s1.mInitialized = s.mInitialized ∧ s1.mUserConsented = s.mUserConsented := by
  obtain ⟨h32, hterm⟩ := fatalSignals_facts sig hsig
  have hcap := handleCrashCapture_fatal s sig hsig
  have hdisp : (((handleCrashCapture s sig).signalSigDfl sig).emit
      (Effect.raise sig)).disposition sig = SigDisposition.sigDfl := by
    simp [disposition, emit, signalSigDfl, setDisposition, List.lookup]
  have hal : (((handleCrashCapture s sig).signalSigDfl sig).emit
      (Effect.raise sig)).terminatedBy = none := by
    rw [hcap]
    simpa [emit, signalSigDfl, setDisposition] using halive
  refine ⟨defaultAction (((handleCrashCapture s sig).signalSigDfl sig).emit
      (Effect.raise sig)) sig, ?_, ?_, ?_, ?_, ?_, ?_⟩
  · simp only [handleCrash, deliver]
    rw [hal]
    simp only [Option.isSome_none, Bool.false_eq_true, if_false]
    rw [hdisp]
  · rw [hcap]
    simp [defaultAction, hterm, emit, signalSigDfl, setDisposition]
  · simpa [defaultAction, hterm, disposition] using hdisp
  · simp [defaultAction, hterm]
  · rw [hcap]
    simp [defaultAction, hterm, emit, signalSigDfl, setDisposition]
  · rw [hcap]
    simp [defaultAction, hterm, emit, signalSigDfl, setDisposition]

/-- Delivery of a fatal signal to a live process in which the repaired `handleCrash` is
installed for it: the handler runs (see `handleCrash_result`). -/
theorem deliver_installed (fuel : Nat) (s : CrashHandler) (sig : Int) (resetHand : Bool)
    (hsig : sig ∈ fatalSignals) (halive : s.terminatedBy = none)
    (hd : s.disposition sig = SigDisposition.handleCrash resetHand) :
    ∃ s1, deliver (fuel + 2) s sig = some s1 ∧
      s1.trace = s.trace ++
        [Effect.sentryCaptureEvent (crashEvent sig), Effect.signalDfl sig, Effect.raise sig] ∧
      s1.disposition sig = SigDisposition.sigDfl ∧
      s1.terminatedBy = some sig := by
  cases resetHand
  · obtain ⟨s1, h1, h2, h3, h4, _⟩ := handleCrash_result fuel s sig hsig halive
    refine ⟨s1, ?_, h2, h3, h4⟩
    rw [deliver]
    simp only [halive, Option.isSome_none, Bool.false_eq_true, if_false, hd]
    exact h1
  · obtain ⟨s1, h1, h2, h3, h4, _⟩ :=
      handleCrash_result fuel (s.setDisposition sig SigDisposition.sigDfl) sig hsig
        (by simpa [setDisposition] using halive)
    refine ⟨s1, ?_, ?_, h3, h4⟩
    · rw [deliver]
      simp only [halive, Option.isSome_none, Bool.false_eq_true, if_false, hd]
      exact h1
    · simpa [setDisposition] using h2

theorem setUserConsent_false_of_armed (env : Env) (t : CrashHandler)
    (h : t.mInitialized = true) :
    setUserConsent env t false = shutdown { t with mUserConsented := false } ∧
    (setUserConsent env t false).trace = t.trace ++ [Effect.sentryShutdown] := by
  constructor
  · simp [setUserConsent, h]
  · simp [setUserConsent, h, shutdown, addBreadcrumb, emit]

/-- C8, the code at the failing input: on a fresh controller of the example build (a
backend that leaves the dispositions alone), `setUserConsent(true)` followed by
`setUserConsent(false)` clears both flags and makes one call, `sentry_shutdown`, and no
`sigaction` or `signal` call: `handleCrash` is still installed for each of the four
fatal signals. `captureMessage` is a no-op in that state, but the handler, which reads
no flag, still makes its `sentry_capture_event` call when it runs for SIGSEGV. -/
theorem handlers_stay_installed_after_consent_withdrawn :
    consentGrantedThenWithdrawn.mInitialized = false ∧
    consentGrantedThenWithdrawn.mUserConsented = false ∧
    consentGrantedThenWithdrawn.trace =
      (setUserConsent exampleEnv (CrashHandler.new "/d") true).trace ++
        [Effect.sentryShutdown] ∧
    (∀ sig ∈ fatalSignals,
      (setUserConsent exampleEnv (CrashHandler.new "/d") true).disposition sig =
        SigDisposition.handleCrash true ∧
      consentGrantedThenWithdrawn.disposition sig = SigDisposition.handleCrash true) ∧
    captureMessage consentGrantedThenWithdrawn "x" = consentGrantedThenWithdrawn ∧
    (handleCrashCapture consentGrantedThenWithdrawn SIGSEGV).trace =
      consentGrantedThenWithdrawn.trace ++ [Effect.sentryCaptureEvent (crashEvent 11)] :=
  ⟨by decide, by decide, by decide, by decide, by decide, by decide⟩

/-- C10, the code at the failing input: in a run where `sentry_init` returns 1,
`setUserConsent(true)` on a fresh controller still marks it initialized (no
`sentry_set_context` call is made, so the failure branch was taken), and the
following `captureMessage("x")`, `captureError("x")` and `addBreadcrumb("x")` each make
a backend call. -/
theorem capture_not_inert_after_failed_sentry_init :
    failingEnv.sentryInitResult ≠ 0 ∧
    armedWithFailedBackend.mInitialized = true ∧
    (armedWithFailedBackend.trace.filter Effect.isBackendCall).map
        (fun e => match e with
          | Effect.sentryInit _ => "sentry_init"
          | Effect.sentryAddBreadcrumb _ => "sentry_add_breadcrumb"
          | _ => "other") =
      ["sentry_init", "sentry_add_breadcrumb"] ∧
    (captureMessage armedWithFailedBackend "x").trace =
      armedWithFailedBackend.trace ++ [Effect.sentryCaptureEvent
        { level := SentryLevel.info, logger := "message", message := "x", fields := [] }] ∧
    (captureError armedWithFailedBackend "x" "").trace =
      armedWithFailedBackend.trace ++ [Effect.sentryCaptureEvent
        { level := SentryLevel.error, logger := "error", message := "x", fields := [] }] ∧
    (addBreadcrumb armedWithFailedBackend "x" "default").trace =
      armedWithFailedBackend.trace ++ [Effect.sentryAddBreadcrumb
        { crumbType := none, message := "x",
          fields := [("category", SentryValue.string "default")] }] :=
  ⟨by decide, by decide, by decide, by decide, by decide, by decide⟩

end CrashHandler

end Mudlet

/-! ## Theorems about `CrashReporter` -/

namespace Mudlet

namespace CrashReporter

theorem string_append_left_cancel (a b c : String) : a ++ b = a ++ c ↔ b = c := by
  constructor
  · intro h
    have hd := congrArg String.data h
    simp only [String.data_append] at hd
    exact String.ext (List.append_cancel_left hd)
  · rintro rfl
    rfl

/-- The path of a directory entry is the report path of `crashId` exactly when the entry
is named `<crashId>.dmp`. -/
theorem filePath_eq_getReportPath (env : ReporterEnv) (name crashId : String) :
    filePath env name = getReportPath env crashId ↔ name = crashId ++ ".dmp" := by
  have h1 : filePath env name = env.appDataLocation ++ ("/crash-reports/" ++ name) := by
    unfold filePath crashDir
    rw [String.append_assoc, String.append_assoc]
    rfl
  have h2 : getReportPath env crashId =
      env.appDataLocation ++ ("/crash-reports/" ++ (crashId ++ ".dmp")) := by
    simp [getReportPath, String.append_assoc]
  rw [h1, h2, string_append_left_cancel, string_append_left_cancel]

theorem hasValidReport_iff (env : ReporterEnv) (w : CrashReporter) (crashId : String) :
    hasValidReport env w crashId = true ↔ ∃ f ∈ w.reports, f.fileName = crashId ++ ".dmp" := by
  simp [hasValidReport, fileExists, filePath_eq_getReportPath]

theorem matchesDmpFilter_append_dmp (crashId : String) :
    matchesDmpFilter (crashId ++ ".dmp") = true := by
  unfold matchesDmpFilter
  rw [List.isSuffixOf_iff_suffix, String.data_append, List.map_append]
  have h : (".dmp" : String).data.map asciiLower = (".dmp" : String).data := by decide
  rw [h]
  exact List.suffix_append _ _

theorem chop_append_dmp (crashId : String) : chop (crashId ++ ".dmp") 4 = crashId := by
  unfold chop
  apply String.ext
  simp [String.data_append]

/-! ### `uploadCrashReport` -/

theorem uploadCrashReport_missing (env : ReporterEnv) (w : CrashReporter) (crashId : String)
    (h : hasValidReport env w crashId = false) :
    uploadCrashReport env w crashId =
      { w with emitted := w.emitted ++ [ReporterSignal.crashReportUploaded crashId false] } := by
  simp [uploadCrashReport, h, emitSignal]

theorem uploadCrashReport_present (env : ReporterEnv) (w : CrashReporter) (crashId : String)
    (h : hasValidReport env w crashId = true) :
    uploadCrashReport env w crashId =
      { w with
        posted := w.posted ++ [NetworkReply.mk w.posted.length w.mUploadUrl
          (prepareUploadData env w crashId []) crashId],
        inFlight := w.inFlight ++ [NetworkReply.mk w.posted.length w.mUploadUrl
          (prepareUploadData env w crashId []) crashId] } := by
  simp [uploadCrashReport, h]

theorem uploadCrashReport_reports (env : ReporterEnv) (w : CrashReporter) (crashId : String) :
    (uploadCrashReport env w crashId).reports = w.reports := by
  unfold uploadCrashReport emitSignal
  split <;> rfl

theorem hasValidReport_congr (env : ReporterEnv) (w v : CrashReporter) (crashId : String)
    (h : v.reports = w.reports) : hasValidReport env v crashId = hasValidReport env w crashId := by
  simp [hasValidReport, fileExists, h]

theorem uploadsFor_uploadCrashReport (env : ReporterEnv) (w : CrashReporter)
    (crashId other : String) :
    uploadsFor (uploadCrashReport env w other) crashId =
      uploadsFor w crashId +
        (if other = crashId ∧ hasValidReport env w crashId = true then 1 else 0) := by
  cases hv : hasValidReport env w other
  · rw [uploadCrashReport_missing env w other hv]
    by_cases ho : other = crashId
    · subst ho
      simp [uploadsFor, hv]
    · simp [uploadsFor, ho]
  · rw [uploadCrashReport_present env w other hv]
    by_cases ho : other = crashId
    · subst ho
      simp [uploadsFor, hv, List.filter_append]
    · simp [uploadsFor, ho, List.filter_append]

/-- C3: when no file of the crash-report directory has the path
`<app-data-dir>/crash-reports/<id>.dmp`, `uploadCrashReport(id)` changes nothing but the
emitted signals, to which it appends exactly one `crashReportUploaded(id, false)`: no
request is posted, nothing is put in flight, the directory is as before. -/
theorem uploadCrashReport_missing_artifact (env : ReporterEnv) (w : CrashReporter)
    (crashId : String)
    (h : ∀ f ∈ w.reports, filePath env f.fileName ≠
      env.appDataLocation ++ "/crash-reports/" ++ crashId ++ ".dmp") :
    uploadCrashReport env w crashId =
      { w with emitted := w.emitted ++ [ReporterSignal.crashReportUploaded crashId false] } ∧
    (uploadCrashReport env w crashId).posted = w.posted ∧
    (uploadCrashReport env w crashId).inFlight = w.inFlight ∧
    (uploadCrashReport env w crashId).reports = w.reports := by
  have hv : hasValidReport env w crashId = false := by
    simp only [hasValidReport, fileExists, getReportPath, List.any_eq_false, beq_iff_eq]
    exact fun f hf => h f hf
  have heq := uploadCrashReport_missing env w crashId hv
  refine ⟨heq, ?_, ?_, ?_⟩ <;> rw [heq]

/-- C3 at a concrete input: the directory holds only `A1B2.dmp` and the id is `ZZZZ`. -/
theorem uploadCrashReport_missing_artifact_witness :
    (uploadCrashReport exampleEnv withA1B2 "ZZZZ").emitted =
      [ReporterSignal.crashReportUploaded "ZZZZ" false] ∧
    (uploadCrashReport exampleEnv withA1B2 "ZZZZ").posted = [] ∧
    (uploadCrashReport exampleEnv withA1B2 "ZZZZ").reports = [reportA1B2] :=
  ⟨congrArg CrashReporter.emitted
      (uploadCrashReport_missing_artifact exampleEnv withA1B2 "ZZZZ" (by decide)).1,
    (uploadCrashReport_missing_artifact exampleEnv withA1B2 "ZZZZ" (by decide)).2.1,
    (uploadCrashReport_missing_artifact exampleEnv withA1B2 "ZZZZ" (by decide)).2.2.2⟩

/-- C5, the claim as stated fails: with the artifact `A1B2` on disk, a second
`uploadCrashReport("A1B2")` made while the first upload is still in flight posts a second
request for the same id; both replies are in flight afterwards. -/
theorem second_upload_while_in_flight_posts_again :
    hasValidReport exampleEnv withA1B2 "A1B2" = true ∧
    (uploadCrashReport exampleEnv withA1B2 "A1B2").inFlight.map (fun r => r.crashId) =
      ["A1B2"] ∧
    uploadsFor (uploadCrashReport exampleEnv (uploadCrashReport exampleEnv withA1B2 "A1B2")
      "A1B2") "A1B2" = 2 ∧
    (uploadCrashReport exampleEnv (uploadCrashReport exampleEnv withA1B2 "A1B2")
      "A1B2").inFlight.map (fun r => (r.handle, r.crashId)) = [(0, "A1B2"), (1, "A1B2")] :=
  ⟨by decide, by decide, by decide, by decide⟩

/-- C5 as amended: `uploadCrashReport` keeps no record of the uploads in flight (its
mutex is held for the duration of one call only), so for an id whose artifact exists
every call posts one request: a second call made while the first upload has not
completed posts a second request for that id, and both replies are then in flight. -/
theorem every_upload_call_posts_a_request (env : ReporterEnv) (w : CrashReporter)
    (crashId : String) (h : hasValidReport env w crashId = true) :
    uploadsFor (uploadCrashReport env w crashId) crashId = uploadsFor w crashId + 1 ∧
    (uploadCrashReport env w crashId).inFlight.length = w.inFlight.length + 1 ∧
    uploadsFor (uploadCrashReport env (uploadCrashReport env w crashId) crashId) crashId =
      uploadsFor w crashId + 2 ∧
    (uploadCrashReport env (uploadCrashReport env w crashId) crashId).inFlight.length =
      w.inFlight.length + 2 ∧
    (uploadCrashReport env (uploadCrashReport env w crashId) crashId).reports = w.reports := by
  have h1 : hasValidReport env (uploadCrashReport env w crashId) crashId = true := by
    rw [hasValidReport_congr env w _ crashId (uploadCrashReport_reports env w crashId)]
    exact h
  refine ⟨?_, ?_, ?_, ?_, ?_⟩
  · simp [uploadsFor_uploadCrashReport, h]
  · simp [uploadCrashReport_present env w crashId h]
  · simp [uploadsFor_uploadCrashReport, h, h1]
  · rw [uploadCrashReport_present env _ crashId h1]
    simp [uploadCrashReport_present env w crashId h]
  · rw [uploadCrashReport_reports, uploadCrashReport_reports]

/-- C5 as amended, at the artifact `A1B2`. -/
theorem every_upload_call_posts_a_request_witness :
    uploadsFor (uploadCrashReport exampleEnv withA1B2 "A1B2") "A1B2" =
      uploadsFor withA1B2 "A1B2" + 1 :=
  (every_upload_call_posts_a_request exampleEnv withA1B2 "A1B2" (by decide)).1

/-! ### `checkPendingReports` and the completion of an upload -/

theorem foldl_upload_reports (env : ReporterEnv) (names : List String) (w : CrashReporter) :
    (names.foldl (fun acc file => uploadCrashReport env acc (chop file 4)) w).reports =
      w.reports := by
  induction names generalizing w with
  | nil => rfl
  | cons n rest ih =>
    simp only [List.foldl_cons]
    rw [ih, uploadCrashReport_reports]

theorem foldl_upload_uploadsFor (env : ReporterEnv) (crashId : String) (names : List String)
    (w : CrashReporter) :
    uploadsFor (names.foldl (fun acc file => uploadCrashReport env acc (chop file 4)) w)
        crashId =
      uploadsFor w crashId +
        (if hasValidReport env w crashId = true then
          (names.filter (fun n => chop n 4 == crashId)).length else 0) := by
  induction names generalizing w with
  | nil => simp
  | cons n rest ih =>
    simp only [List.foldl_cons]
    rw [ih, uploadsFor_uploadCrashReport,
      hasValidReport_congr env w _ crashId (uploadCrashReport_reports env w _)]
    by_cases hv : hasValidReport env w crashId = true
    · by_cases hn : chop n 4 = crashId
      · simp [hv, hn, List.filter_cons]
        omega
      · simp [hv, hn, List.filter_cons]
    · simp [hv]

theorem checkPendingReports_reports (env : ReporterEnv) (w : CrashReporter) :
    (checkPendingReports env w).reports = w.reports :=
  foldl_upload_reports env _ w

/-- Without the artifact file of `crashId`, `checkPendingReports` posts nothing for it. -/
theorem checkPendingReports_skips_missing (env : ReporterEnv) (w : CrashReporter)
    (crashId : String) (h : hasValidReport env w crashId = false) :
    uploadsFor (checkPendingReports env w) crashId = uploadsFor w crashId := by
  unfold checkPendingReports
  rw [foldl_upload_uploadsFor]
  simp [h]

/-- With the artifact file of `crashId` on disk, `checkPendingReports` posts a request
for it. -/
theorem checkPendingReports_uploads_present (env : ReporterEnv) (w : CrashReporter)
    (crashId : String) (h : hasValidReport env w crashId = true) :
    uploadsFor w crashId < uploadsFor (checkPendingReports env w) crashId := by
  unfold checkPendingReports
  rw [foldl_upload_uploadsFor]
  simp only [h, if_true]
  have hmem : crashId ++ ".dmp" ∈ (entryList w).filter (fun n => chop n 4 == crashId) := by
    obtain ⟨f, hf, hname⟩ := (hasValidReport_iff env w crashId).1 h
    simp only [List.mem_filter, entryList, List.mem_map, beq_iff_eq]
    exact ⟨⟨⟨f, hf, hname⟩, matchesDmpFilter_append_dmp crashId⟩, chop_append_dmp crashId⟩
  have hpos := List.length_pos_of_mem hmem
  omega

/-- A scan posts a request for `crashId` exactly when its artifact file is on disk. -/
theorem checkPendingReports_uploads_iff (env : ReporterEnv) (w : CrashReporter)
    (crashId : String) :
    uploadsFor w crashId < uploadsFor (checkPendingReports env w) crashId ↔
      hasValidReport env w crashId = true := by
  constructor
  · intro hlt
    cases hv : hasValidReport env w crashId
    · rw [checkPendingReports_skips_missing env w crashId hv] at hlt
      omega
    · rfl
  · exact checkPendingReports_uploads_present env w crashId

theorem finished_success (env : ReporterEnv) (w : CrashReporter) (reply : NetworkReply) :
    (finished env w reply NoError true).reports =
      w.reports.filter (fun f => f.fileName != reply.crashId ++ ".dmp") ∧
    (finished env w reply NoError true).emitted =
      w.emitted ++ [ReporterSignal.crashReportUploaded reply.crashId true] ∧
    (finished env w reply NoError true).posted = w.posted := by
  refine ⟨?_, ?_, ?_⟩
  · simp only [finished, handleUploadFinished, removeFile, emitSignal, beq_self_eq_true,
      if_true]
    apply List.filter_congr
    intro f _
    by_cases hf : f.fileName = reply.crashId ++ ".dmp"
    · simp [hf, (filePath_eq_getReportPath env _ _).2 rfl]
    · have hne : filePath env f.fileName ≠ getReportPath env reply.crashId :=
        fun hp => hf ((filePath_eq_getReportPath env _ _).1 hp)
      have h1 : (filePath env f.fileName == getReportPath env reply.crashId) = false := by
        simpa using hne
      have h2 : (f.fileName != reply.crashId ++ ".dmp") = true := by simpa using hf
      rw [h1, h2]
      rfl
  · simp [finished, handleUploadFinished, removeFile, emitSignal]
  · simp [finished, handleUploadFinished, removeFile, emitSignal]

theorem finished_success_not_removed (env : ReporterEnv) (w : CrashReporter)
    (reply : NetworkReply) :
    (finished env w reply NoError false).reports = w.reports ∧
    (finished env w reply NoError false).emitted =
      w.emitted ++ [ReporterSignal.crashReportUploaded reply.crashId true] ∧
    (finished env w reply NoError false).posted = w.posted := by
  simp [finished, handleUploadFinished, emitSignal]

theorem finished_failure (env : ReporterEnv) (w : CrashReporter) (reply : NetworkReply)
    (error : Nat) (removed : Bool) (herr : error ≠ NoError) :
    (finished env w reply error removed).reports = w.reports ∧
    (finished env w reply error removed).emitted =
      w.emitted ++ [ReporterSignal.crashReportUploaded reply.crashId false] ∧
    (finished env w reply error removed).posted = w.posted := by
  have hb : (error == NoError) = false := by simpa using herr
  simp [finished, handleUploadFinished, emitSignal, hb]

/-- After a completion that leaves the directory and the posted requests as they were,
the next scan posts a request for the id exactly when its file was on disk. -/
theorem retry_iff_on_disk (env : ReporterEnv) (w v : CrashReporter) (crashId : String)
    (hrep : v.reports = w.reports) (hposted : v.posted = w.posted) :
    uploadsFor w crashId < uploadsFor (checkPendingReports env v) crashId ↔
      hasValidReport env w crashId = true := by
  have heq : uploadsFor v crashId = uploadsFor w crashId := by
    simp [uploadsFor, hposted]
  rw [← hasValidReport_congr env w v crashId hrep, ← heq]
  exact checkPendingReports_uploads_iff env v crashId

/-- C4, the claim as stated fails, in two ways. With two uploads of `A1B2` in flight, the
first completes with `NoError` and removes the file; when the second then completes with
error 203, the directory is left unchanged and `crashReportUploaded("A1B2", false)` is
emitted, yet the following `checkPendingReports()` posts nothing for `A1B2`. And when an
upload completes with `NoError` but the removal of the file fails, the file for `A1B2`
still exists afterwards and the following `checkPendingReports()` posts a request for
it. -/
theorem completion_without_retry_or_removal :
    secondReplyA1B2 ∈ firstOfTwoSucceeded.inFlight ∧
    secondOfTwoFailed.reports = firstOfTwoSucceeded.reports ∧
    secondOfTwoFailed.emitted =
      firstOfTwoSucceeded.emitted ++ [ReporterSignal.crashReportUploaded "A1B2" false] ∧
    uploadsFor (checkPendingReports exampleEnv secondOfTwoFailed) "A1B2" =
      uploadsFor secondOfTwoFailed "A1B2" ∧
    replyA1B2 ∈ uploadingA1B2.inFlight ∧
    succeededButNotRemoved.emitted = [ReporterSignal.crashReportUploaded "A1B2" true] ∧
    hasValidReport exampleEnv succeededButNotRemoved "A1B2" = true ∧
    uploadsFor (checkPendingReports exampleEnv succeededButNotRemoved) "A1B2" =
      uploadsFor succeededButNotRemoved "A1B2" + 1 :=
  ⟨by decide, by decide, by decide, by decide, by decide, by decide, by decide, by decide⟩

/-- C4 as amended: when the upload of an artifact id completes with
`QNetworkReply::NoError`, exactly one `crashReportUploaded(id, true)` is emitted and the
file of the id is removed: if that removal succeeds, the file is gone (every other file
is as before) and a following `checkPendingReports()` posts no request for the id; if it
fails, the directory is unchanged. When the upload completes with an error, the directory
is unchanged and exactly one `crashReportUploaded(id, false)` is emitted. Whenever the
directory is left unchanged, a following `checkPendingReports()` posts a request for the
id again exactly when the artifact file of the id is on disk. -/
theorem upload_completion_outcomes (env : ReporterEnv) (w : CrashReporter)
    (reply : NetworkReply) (error : Nat) (removed : Bool) :
    (hasValidReport env (finished env w reply NoError true) reply.crashId = false ∧
      (finished env w reply NoError true).reports =
        w.reports.filter (fun f => f.fileName != reply.crashId ++ ".dmp") ∧
      (finished env w reply NoError true).emitted =
        w.emitted ++ [ReporterSignal.crashReportUploaded reply.crashId true] ∧
      uploadsFor (checkPendingReports env (finished env w reply NoError true)) reply.crashId =
        uploadsFor w reply.crashId) ∧
    ((finished env w reply NoError false).reports = w.reports ∧
      (finished env w reply NoError false).emitted =
        w.emitted ++ [ReporterSignal.crashReportUploaded reply.crashId true] ∧
      (uploadsFor w reply.crashId <
          uploadsFor (checkPendingReports env (finished env w reply NoError false))
            reply.crashId ↔
        hasValidReport env w reply.crashId = true)) ∧
    (error ≠ NoError →
      (finished env w reply error removed).reports = w.reports ∧
      (finished env w reply error removed).emitted =
        w.emitted ++ [ReporterSignal.crashReportUploaded reply.crashId false] ∧
      (uploadsFor w reply.crashId <
          uploadsFor (checkPendingReports env (finished env w reply error removed))
            reply.crashId ↔
        hasValidReport env w reply.crashId = true)) := by
  obtain ⟨hrep, hemit, hposted⟩ := finished_success env w reply
  have hgone : hasValidReport env (finished env w reply NoError true) reply.crashId = false := by
    cases hv : hasValidReport env (finished env w reply NoError true) reply.crashId
    · rfl
    · obtain ⟨f, hf, hname⟩ := (hasValidReport_iff env _ _).1 hv
      rw [hrep] at hf
      simp [hname] at hf
  refine ⟨⟨hgone, hrep, hemit, ?_⟩, ?_, fun herr => ?_⟩
  · rw [checkPendingReports_skips_missing env _ _ hgone]
    simp [uploadsFor, hposted]
  · obtain ⟨hrep1, hemit1, hposted1⟩ := finished_success_not_removed env w reply
    exact ⟨hrep1, hemit1, retry_iff_on_disk env w _ _ hrep1 hposted1⟩
  · obtain ⟨hrep2, hemit2, hposted2⟩ := finished_failure env w reply error removed herr
    exact ⟨hrep2, hemit2, retry_iff_on_disk env w _ _ hrep2 hposted2⟩

/-- C4 as amended, at the artifact `A1B2` whose upload is in flight: on success with the
file removed no request follows; on error 203 the file is on disk and the next
`checkPendingReports()` posts one again. -/
theorem upload_completion_outcomes_witness :
    hasValidReport exampleEnv (finished exampleEnv uploadingA1B2 replyA1B2 NoError true)
      "A1B2" = false ∧
    uploadsFor uploadingA1B2 "A1B2" <
      uploadsFor (checkPendingReports exampleEnv (finished exampleEnv uploadingA1B2 replyA1B2
        203 false)) "A1B2" :=
  ⟨(upload_completion_outcomes exampleEnv uploadingA1B2 replyA1B2 203 false).1.1,
    ((upload_completion_outcomes exampleEnv uploadingA1B2 replyA1B2 203 false).2.2
      (by decide)).2.2.2 (by decide)⟩

/-! ### `cleanOldReports` -/

/-- With the artifact file of `crashId` on disk and open for reading,
`prepareUploadData` appends the binary part holding the bytes of a file named
`<crashId>.dmp`, then the JSON part. -/
theorem prepareUploadData_readable (env : ReporterEnv) (w : CrashReporter) (crashId : String)
    (multiPart : List HttpPart) (h : hasValidReport env w crashId = true)
    (hread : ∀ f ∈ w.reports, f.fileName = crashId ++ ".dmp" → f.readable = true) :
    ∃ f ∈ w.reports, f.fileName = crashId ++ ".dmp" ∧
      prepareUploadData env w crashId multiPart =
        multiPart ++
          [HttpPart.mk "application/octet-stream"
              ("form-data; name=\"upload_file_minidump\"; filename=\"" ++ crashId ++ ".dmp\"")
              (PartBody.raw f.content),
            HttpPart.mk "application/json" "form-data; name=\"sentry\""
              (PartBody.json
                [("platform", "native"), ("release", env.appVersion ++ env.appBuild),
                  ("timestamp", env.toIsoDate w.clock), ("event_id", crashId)])] := by
  cases hfind : w.reports.find?
      (fun f => filePath env f.fileName == getReportPath env crashId) with
  | none =>
    obtain ⟨f, hf, hname⟩ := (hasValidReport_iff env w crashId).1 h
    have hno := List.find?_eq_none.1 hfind f hf
    simp [(filePath_eq_getReportPath env _ _).2 hname] at hno
  | some g =>
    have hg : g ∈ w.reports := List.mem_of_find?_eq_some hfind
    have hgname : g.fileName = crashId ++ ".dmp" := by
      have hp := List.find?_some hfind
      exact (filePath_eq_getReportPath env _ _).1 (by simpa using hp)
    refine ⟨g, hg, hgname, ?_⟩
    simp [prepareUploadData, readAll, hfind, addMetadata, hread g hg hgname]

/-- When the file of `crashId` cannot be opened, `prepareUploadData` returns early and
adds no part. -/
theorem prepareUploadData_unreadable (env : ReporterEnv) (w : CrashReporter)
    (crashId : String) (multiPart : List HttpPart)
    (hread : ∀ f ∈ w.reports, f.fileName = crashId ++ ".dmp" → f.readable = false) :
    prepareUploadData env w crashId multiPart = multiPart := by
  cases hfind : w.reports.find?
      (fun f => filePath env f.fileName == getReportPath env crashId) with
  | none => simp [prepareUploadData, readAll, hfind]
  | some g =>
    have hg : g ∈ w.reports := List.mem_of_find?_eq_some hfind
    have hgname : g.fileName = crashId ++ ".dmp" := by
      have hp := List.find?_some hfind
      exact (filePath_eq_getReportPath env _ _).1 (by simpa using hp)
    simp [prepareUploadData, readAll, hfind, hread g hg hgname]

/-- For an artifact file that is on disk and can be opened, `uploadCrashReport(id)`
posts exactly one request, whose multi-part body is the binary part holding the bytes of
a file named `<id>.dmp` followed by the JSON part with the members `platform`,
`release`, `timestamp` and `event_id`, the last equal to `id`. -/
theorem uploadCrashReport_readable_artifact (env : ReporterEnv) (w : CrashReporter)
    (crashId : String) (h : hasValidReport env w crashId = true)
    (hread : ∀ f ∈ w.reports, f.fileName = crashId ++ ".dmp" → f.readable = true) :
    ∃ f ∈ w.reports, f.fileName = crashId ++ ".dmp" ∧
      (uploadCrashReport env w crashId).posted =
        w.posted ++
          [NetworkReply.mk w.posted.length w.mUploadUrl
            [HttpPart.mk "application/octet-stream"
                ("form-data; name=\"upload_file_minidump\"; filename=\"" ++ crashId ++
                  ".dmp\"")
                (PartBody.raw f.content),
              HttpPart.mk "application/json" "form-data; name=\"sentry\""
                (PartBody.json
                  [("platform", "native"), ("release", env.appVersion ++ env.appBuild),
                    ("timestamp", env.toIsoDate w.clock), ("event_id", crashId)])]
            crashId] := by
  obtain ⟨f, hf, hname, hparts⟩ := prepareUploadData_readable env w crashId [] h hread
  refine ⟨f, hf, hname, ?_⟩
  rw [uploadCrashReport_present env w crashId h, hparts]
  rfl

/-- For an artifact file that is on disk and cannot be opened, `uploadCrashReport(id)`
still posts one request, with no part in its body. -/
theorem uploadCrashReport_unreadable_artifact (env : ReporterEnv) (w : CrashReporter)
    (crashId : String) (h : hasValidReport env w crashId = true)
    (hread : ∀ f ∈ w.reports, f.fileName = crashId ++ ".dmp" → f.readable = false) :
    (uploadCrashReport env w crashId).posted =
      w.posted ++ [NetworkReply.mk w.posted.length w.mUploadUrl [] crashId] ∧
    (uploadCrashReport env w crashId).emitted = w.emitted := by
  rw [uploadCrashReport_present env w crashId h,
    prepareUploadData_unreadable env w crashId [] hread]
  exact ⟨rfl, rfl⟩

/-- C11, the code at the failing input: the entry `A1B2.dmp` exists and cannot be opened
for reading. `uploadCrashReport("A1B2")` passes the existence test, `prepareUploadData`
returns early without adding a part, and one request is posted all the same, with an
empty multi-part body: neither the binary part nor the JSON part with `event_id` is in
it, and no signal is emitted. With the readable `A1B2.dmp` the body is the two parts. -/
theorem unopenable_artifact_posts_empty_request :
    hasValidReport exampleEnv withUnreadableA1B2 "A1B2" = true ∧
    readAll exampleEnv withUnreadableA1B2 (getReportPath exampleEnv "A1B2") = none ∧
    (uploadCrashReport exampleEnv withUnreadableA1B2 "A1B2").posted.map
        (fun r => (r.crashId, r.multiPart)) = [("A1B2", [])] ∧
    (uploadCrashReport exampleEnv withUnreadableA1B2 "A1B2").emitted = [] ∧
    (uploadCrashReport exampleEnv withA1B2 "A1B2").posted.map
        (fun r => r.multiPart.map (fun part => part.body)) =
      [[PartBody.raw [77, 68, 77, 80],
        PartBody.json [("platform", "native"), ("release", "4.17.2"), ("timestamp", "0"),
          ("event_id", "A1B2")]]] :=
  ⟨by decide, by decide, by decide, by decide, by decide⟩

end CrashReporter

namespace Process

/-- C2, the claim as stated fails: in a process whose consent flag is false and whose
directory holds the artifact `A1B2`, `uploadCrashReport("A1B2")`,
`checkPendingReports()` and the reporter's `initialize()` each post one request. -/
theorem upload_without_consent_posts_request :
    unconsentedWithA1B2.handler.mUserConsented = false ∧
    (uploadCrashReport CrashReporter.exampleEnv unconsentedWithA1B2 "A1B2").reporter.posted.map
      (fun r => r.crashId) = ["A1B2"] ∧
    (uploadCrashReport CrashReporter.exampleEnv unconsentedWithA1B2
      "A1B2").handler.mUserConsented = false ∧
    (checkPendingReports CrashReporter.exampleEnv unconsentedWithA1B2).reporter.posted.map
      (fun r => r.crashId) = ["A1B2"] ∧
    (initializeReporter CrashReporter.exampleEnv unconsentedWithA1B2).reporter.posted.map
      (fun r => r.crashId) = ["A1B2"] :=
  ⟨by decide, by decide, by decide, by decide, by decide⟩

/-- C2 as amended: transmission is not gated by consent. `uploadCrashReport(id)` neither
reads nor changes the consent flag: whatever the flag is, it posts exactly one request
when the artifact file of `id` exists and none when it does not. -/
theorem upload_ignores_consent (env : ReporterEnv) (p : Process) (crashId : String)
    (consent : Bool) :
    (uploadCrashReport env { p with handler := { p.handler with mUserConsented := consent } }
      crashId).reporter = (uploadCrashReport env p crashId).reporter ∧
    (uploadCrashReport env p crashId).handler = p.handler ∧
    (uploadCrashReport env p crashId).reporter.posted.length =
      p.reporter.posted.length +
        (if CrashReporter.hasValidReport env p.reporter crashId = true then 1 else 0) := by
  refine ⟨rfl, rfl, ?_⟩
  cases hv : CrashReporter.hasValidReport env p.reporter crashId
  · simp [uploadCrashReport, CrashReporter.uploadCrashReport_missing env _ crashId hv]
  · simp [uploadCrashReport, CrashReporter.uploadCrashReport_present env _ crashId hv]

end Process

end Mudlet
